import Mathlib

/-!
# Reportify: a verification development

Shallow embedding of the Reportify codebase (multi-tenant session-recording
and report-generation SaaS) together with proofs of properties of its
operations.  The embedded functions mirror the TypeScript source:

* `apps/api/src/middleware/auth.ts` — `requireRole` RBAC guard;
* `apps/api/src/routes/reports.ts` — report endpoints over the mock db;
* `apps/api/src/routes/sessions.ts` — the add-event endpoint;
* `apps/api/src/routes/exports.ts` — export creation and deferred processing;
* `apps/api/src/services/reportComposer.ts` — PAR-N report generation;
* `packages/asr-service/src/services/ASRProcessor.ts` — mock ASR and
  regex-based content detection;
* `packages/asr-service/src/services/TranscriptionQueue.ts` — in-memory
  transcription job queue;
* `apps/api/src/database/mock-db.ts` — the in-memory store.

JavaScript strings are modelled as `List Char` where character offsets
matter and as `String` elsewhere; `Math.random()`-driven choices are
modelled as explicit oracle arguments (a `Fin n` index for a choice among
`n` alternatives); `Date` values and their ISO formatting are modelled as
opaque `String` timestamps supplied by the caller.
-/

namespace Reportify

/-! ## Generic JavaScript-style string helpers -/

/-- `needle.isPrefixOf` check at every start position: the Boolean substring
test behind `String.prototype.includes`. -/
def listContainsSub (hay needle : List Char) : Bool :=
  (List.range (hay.length + 1)).any (fun i => needle.isPrefixOf (hay.drop i))

/-- `String.prototype.includes`, on Lean strings. -/
def jsIncludes (hay needle : String) : Bool :=
  listContainsSub hay.data needle.data

/-- `String.prototype.toLowerCase` (ASCII-relevant part). -/
def lowerStr (s : String) : String :=
  s.map Char.toLower

/-! ## RBAC middleware (`apps/api/src/middleware/auth.ts`) -/

/-- The role union type of `AuthenticatedUser`. -/
inductive Role where
  | agent
  | manager
  | admin
  | auditor
deriving DecidableEq, Repr

/-- `AuthenticatedUser` as attached to `request.user` by `authenticate`. -/
structure AuthenticatedUser where
  id : String
  tenantId : String
  email : String
  name : String
  role : Role
deriving DecidableEq, Repr

/-- Outcome of a fastify preHandler guard: an early error reply with a
status code, or falling through to the route handler with the request
unchanged. -/
inductive GuardOutcome where
  | reject (statusCode : Nat) (error : String)
  | proceed
deriving DecidableEq, Repr

/-- `requireRole(allowedRoles)` applied to a request whose `user` field is
`none` when `authenticate` did not attach a user.  Mirrors the source:
401 when there is no user, 403 when `allowedRoles` does not include the
user's role, otherwise fall through. -/
def requireRole (allowedRoles : List Role) (user : Option AuthenticatedUser) :
    GuardOutcome :=
  match user with
  | none => .reject 401 "Authentication required"
  | some u =>
      if ¬ (allowedRoles.contains u.role) then .reject 403 "Insufficient permissions"
      else .proceed

/-- The seed admin user of the mock database (`mock-db.ts`), in the shape
`authenticate` attaches to `request.user`. -/
def demoAdminUser : AuthenticatedUser :=
  { id := "user-1"
    tenantId := "demo-tenant-1"
    email := "admin@reportify.com"
    name := "Admin User"
    role := .admin }

/-! ## Transcription queue (`packages/asr-service/src/services/TranscriptionQueue.ts`) -/

/-- The `status` union of `TranscriptionJob`. -/
inductive JobStatus where
  | queued
  | processing
  | completed
  | failed
deriving DecidableEq, Repr

/-- `TranscriptionJob` (the fields `getQueueStats` inspects, plus the
payload fields carried along). -/
structure TranscriptionJob where
  id : String
  audioUrl : String
  sessionId : String
  language : String
  status : JobStatus
  progress : Option Nat := none
  result : Option String := none
  error : Option String := none
deriving DecidableEq, Repr

/-- The record returned by `getQueueStats`. -/
structure QueueStats where
  totalJobs : Nat
  queuedJobs : Nat
  processingJobs : Nat
  completedJobs : Nat
  failedJobs : Nat
deriving DecidableEq, Repr

/-- The body of the `for (const job of this.jobs.values())` loop in
`getQueueStats`: the `switch` on `job.status` increments exactly one
counter. -/
def statsStep (stats : QueueStats) (job : TranscriptionJob) : QueueStats :=
  match job.status with
  | .queued => { stats with queuedJobs := stats.queuedJobs + 1 }
  | .processing => { stats with processingJobs := stats.processingJobs + 1 }
  | .completed => { stats with completedJobs := stats.completedJobs + 1 }
  | .failed => { stats with failedJobs := stats.failedJobs + 1 }

/-- `getQueueStats`: `totalJobs` is `this.jobs.size`; the loop over
`this.jobs.values()` increments one counter per job according to the
`switch` on `job.status`.  The map's value collection is modelled as the
list `jobs`. -/
def getQueueStats (jobs : List TranscriptionJob) : QueueStats :=
  let init : QueueStats :=
    { totalJobs := jobs.length
      queuedJobs := 0
      processingJobs := 0
      completedJobs := 0
      failedJobs := 0 }
  jobs.foldl statsStep init

/-! ### Queue ordering model

`addJob` appends the new job id to `this.processingQueue` and records the
job in `this.jobs`; the single `startQueueProcessor` loop repeatedly
`shift()`s the first id off `processingQueue`, skips it if it is no longer
in `this.jobs`, and otherwise awaits `processJob` on it before looking at
the queue again.  Because `processJob` is awaited, at most one job is in
flight at a time, so one processor step (one `shift` plus the processing
of the shifted job) is modelled as an atomic `tick`.  A run of the system
is an arbitrary interleaving of `add` and `tick` operations. -/

/-- One observable operation on the queue. -/
inductive QueueOp where
  | add (jobId : String)
  | tick
deriving DecidableEq, Repr

/-- Queue state: the ids known to `this.jobs`, the pending
`this.processingQueue`, plus two histories used to state ordering
properties — ids in the order they were added, and ids in the order the
processor dequeued and processed them. -/
structure QueueState where
  jobIds : List String
  processingQueue : List String
  addedOrder : List String
  processedOrder : List String
deriving DecidableEq, Repr

/-- The empty queue a fresh `TranscriptionQueue` starts with. -/
def initQueueState : QueueState :=
  { jobIds := [], processingQueue := [], addedOrder := [], processedOrder := [] }

/-- One step: `add` mirrors `addJob` (record job, push id at the back);
`tick` mirrors one iteration of `startQueueProcessor` (nothing happens on
an empty queue; otherwise `shift` the front id, skip if unknown, else
process it). -/
def queueStep (st : QueueState) : QueueOp → QueueState
  | .add j =>
      { st with
        jobIds := st.jobIds ++ [j]
        processingQueue := st.processingQueue ++ [j]
        addedOrder := st.addedOrder ++ [j] }
  | .tick =>
      match st.processingQueue with
      | [] => st
      | j :: rest =>
          if st.jobIds.contains j then
            { st with
              processingQueue := rest
              processedOrder := st.processedOrder ++ [j] }
          else
            { st with processingQueue := rest }

/-- Run a sequence of operations from the initial state. -/
def queueRun (ops : List QueueOp) : QueueState :=
  ops.foldl queueStep initQueueState

/-! ## Mock ASR processor (`packages/asr-service/src/services/ASRProcessor.ts`)

JavaScript strings are modelled as `List Char` here because the content
detector works with character offsets.  The four PII regular expressions
are embedded as terms of a small regex AST together with a backtracking
matcher whose priority order mirrors the JavaScript engine (greedy
quantifiers, leftmost match, non-overlapping global scan). -/

/-- A JavaScript word character (the regex `\w` class behind `\b`). -/
def isWordChar (c : Char) : Bool :=
  c.isAlphanum || c == '_'

/-- Regex AST covering exactly the constructs the PII patterns use:
the empty pattern, a character class, concatenation, a greedy optional
group, a greedy Kleene star of a character class, and the `\b`
word-boundary assertion. -/
inductive RE where
  | eps
  | cls (p : Char → Bool)
  | seq (a b : RE)
  | opt (a : RE)
  | starCls (p : Char → Bool)
  | wordB

/-- Word-boundary test at offset `i` of `s`: the wordness of the previous
character (non-word at the left edge) differs from the wordness of the
current one (non-word at the right edge). -/
def boundaryAt (s : List Char) (i : Nat) : Bool :=
  let wb : Nat → Bool := fun j =>
    match s[j]? with
    | some c => isWordChar c
    | none => false
  ((i != 0) && wb (i - 1)) != wb i

/-- Length of the maximal run of characters satisfying `p`. -/
def clsRunLen (p : Char → Bool) : List Char → Nat
  | [] => 0
  | c :: cs => if p c then clsRunLen p cs + 1 else 0

/-- All end positions a pattern can reach from `pos`, in the priority
order of a backtracking JavaScript engine (greedy alternatives first);
the engine's chosen match is the head. -/
def matchEnds (s : List Char) : RE → Nat → List Nat
  | .eps, pos => [pos]
  | .wordB, pos => if boundaryAt s pos then [pos] else []
  | .cls p, pos =>
      match s[pos]? with
      | some c => if p c then [pos + 1] else []
      | none => []
  | .seq a b, pos => (matchEnds s a pos).flatMap (fun m => matchEnds s b m)
  | .opt a, pos => matchEnds s a pos ++ [pos]
  | .starCls p, pos =>
      ((List.range (clsRunLen p (s.drop pos) + 1)).reverse).map (fun k => pos + k)

/-- The global scan of `String.prototype.matchAll` with a `g` regex:
attempt a match at each position from the left; on success record
`(start, end)` and resume at the match end (or one further for an empty
match), on failure advance one position.  `fuel` bounds the scan by the
string length. -/
def matchAllFrom (s : List Char) (re : RE) : Nat → Nat → List (Nat × Nat)
  | 0, _ => []
  | fuel + 1, pos =>
      if pos > s.length then []
      else
        match (matchEnds s re pos).head? with
        | some e =>
            (pos, e) :: matchAllFrom s re fuel (if pos < e then e else pos + 1)
        | none => matchAllFrom s re fuel (pos + 1)

/-- `transcript.matchAll(pattern)` as a list of `(start, end)` offset
pairs. -/
def jsMatchAll (s : List Char) (re : RE) : List (Nat × Nat) :=
  matchAllFrom s re (s.length + 1) 0

/-- A single literal character. -/
def chr (c : Char) : RE :=
  .cls (fun x => x == c)

/-- One-or-more of a character class (`X+` with `X` a class). -/
def clsPlus (p : Char → Bool) : RE :=
  .seq (.cls p) (.starCls p)

/-- Two-or-more of a character class (the bounded quantifier `X{2,}`). -/
def clsAtLeastTwo (p : Char → Bool) : RE :=
  .seq (.cls p) (.seq (.cls p) (.starCls p))

/-- Exact repetition of a character class (the quantifier `X{n}`). -/
def clsRep (p : Char → Bool) : Nat → RE
  | 0 => .eps
  | n + 1 => .seq (.cls p) (clsRep p n)

/-- Concatenation of a pattern list. -/
def seqAll (l : List RE) : RE :=
  l.foldr .seq .eps

/-- The local-part class of the email pattern: alphanumerics and
dot, underscore, percent, plus, hyphen. -/
def emailLocalChar (c : Char) : Bool :=
  c.isAlphanum || c == '.' || c == '_' || c == '%' || c == '+' || c == '-'

/-- The domain class of the email pattern: alphanumerics, dot, hyphen. -/
def emailDomainChar (c : Char) : Bool :=
  c.isAlphanum || c == '.' || c == '-'

/-- The top-level-domain class: the source writes the class as capital A
to Z, a pipe, and lowercase a to z, so the literal pipe character is a
member. -/
def emailTldChar (c : Char) : Bool :=
  c.isAlpha || c == '|'

/-- The phone separator class: hyphen, dot, or whitespace. -/
def phoneSepChar (c : Char) : Bool :=
  c == '-' || c == '.' || c.isWhitespace

/-- The credit-card separator class: hyphen or whitespace. -/
def ccSepChar (c : Char) : Bool :=
  c == '-' || c.isWhitespace

/-- The email pattern: boundary, local part, at-sign, domain, dot,
top-level domain of length at least two, boundary. -/
def emailRE : RE :=
  seqAll [.wordB, clsPlus emailLocalChar, chr '@', clsPlus emailDomainChar,
    chr '.', clsAtLeastTwo emailTldChar, .wordB]

/-- The phone pattern: boundary, an optional country-code group (optional
plus, the digit one, optional separator), an optional opening parenthesis,
three digits, an optional closing parenthesis, optional separator, three
digits, optional separator, four digits, boundary. -/
def phoneRE : RE :=
  seqAll [.wordB,
    .opt (seqAll [.opt (chr '+'), chr '1', .opt (.cls phoneSepChar)]),
    .opt (chr '('), clsRep Char.isDigit 3, .opt (chr ')'),
    .opt (.cls phoneSepChar), clsRep Char.isDigit 3,
    .opt (.cls phoneSepChar), clsRep Char.isDigit 4, .wordB]

/-- The SSN pattern: boundary, three digits, hyphen, two digits, hyphen,
four digits, boundary. -/
def ssnRE : RE :=
  seqAll [.wordB, clsRep Char.isDigit 3, chr '-', clsRep Char.isDigit 2,
    chr '-', clsRep Char.isDigit 4, .wordB]

/-- The credit-card pattern: boundary, then four groups of four digits
with optional separators, boundary. -/
def ccRE : RE :=
  seqAll [.wordB, clsRep Char.isDigit 4, .opt (.cls ccSepChar),
    clsRep Char.isDigit 4, .opt (.cls ccSepChar), clsRep Char.isDigit 4,
    .opt (.cls ccSepChar), clsRep Char.isDigit 4, .wordB]

/-- The `type` union of `ContentDetection`. -/
inductive DetectionType where
  | profanity
  | pii_email
  | pii_phone
  | pii_ssn
  | pii_credit_card
deriving DecidableEq, Repr

/-- The `ContentDetection` interface (text as a character list, offsets in
code units). -/
structure ContentDetection where
  type : DetectionType
  text : List Char
  confidence : Nat
  startOffset : Nat
  endOffset : Nat
deriving DecidableEq, Repr

/-- The `piiPatterns` map: each entry yields detections of the
corresponding `pii_` type. -/
def piiPatterns : List (DetectionType × RE) :=
  [(.pii_email, emailRE), (.pii_phone, phoneRE), (.pii_ssn, ssnRE),
   (.pii_credit_card, ccRE)]

/-- The hardcoded `profanityList`. -/
def profanityList : List (List Char) :=
  ["damn".data, "hell".data, "crap".data, "stupid".data, "idiot".data]

/-- `String.prototype.toLowerCase` on a character list. -/
def lowerChars (s : List Char) : List Char :=
  s.map Char.toLower

/-- Worker for `splitWs`, accumulating the current token reversed; the
Boolean flag records whether the scan is inside a whitespace run whose
preceding token has already been emitted. -/
def splitWsGo : List Char → List Char → Bool → List (List Char)
  | [], acc, false => [acc.reverse]
  | [], _, true => [[]]
  | c :: cs, acc, false =>
      if c.isWhitespace then
        acc.reverse :: splitWsGo cs [] true
      else
        splitWsGo cs (c :: acc) false
  | c :: cs, acc, true =>
      if c.isWhitespace then
        splitWsGo cs acc true
      else
        splitWsGo cs [c] false

/-- `split(/\s+/)` on a character list: splits at maximal whitespace runs
(with the JavaScript artifact of an empty leading or trailing token when
the string starts or ends with whitespace). -/
def splitWs (s : List Char) : List (List Char) :=
  splitWsGo s [] false

/-- `String.prototype.indexOf` for a sublist (position of the first
occurrence). -/
def jsIndexOfSub (hay needle : List Char) : Option Nat :=
  (List.range (hay.length + 1)).find? (fun i => needle.isPrefixOf (hay.drop i))

/-- The profanity part of `detectContent`: each lowercased whitespace word
in the list yields a detection whose offset is the first occurrence of the
word in the lowercased transcript (the `indexOf` cannot miss since the
word was split out of that very string, so the impossible miss is modelled
as offset zero). -/
def profanityDetections (transcript : List Char) : List ContentDetection :=
  ((splitWs (lowerChars transcript)).filter (fun w => profanityList.contains w)).map
    (fun w =>
      let startOffset := (jsIndexOfSub (lowerChars transcript) w).getD 0
      { type := .profanity
        text := w
        confidence := 95
        startOffset := startOffset
        endOffset := startOffset + w.length })

/-- The slice of `s` between two offsets (`String.prototype.slice` with
non-negative in-range arguments). -/
def extractRange (s : List Char) (a b : Nat) : List Char :=
  (s.drop a).take (b - a)

/-- One PII detection from a match: `match[0]` is the matched substring,
`startOffset` the match index, `endOffset` index plus text length. -/
def mkPiiDetection (s : List Char) (ty : DetectionType) (m : Nat × Nat) :
    ContentDetection :=
  let text := extractRange s m.1 m.2
  { type := ty
    text := text
    confidence := 90
    startOffset := m.1
    endOffset := m.1 + text.length }

/-- `detectContent`: the profanity detections followed by, for each entry
of `piiPatterns` in order, one detection per `matchAll` match. -/
def detectContent (transcript : List Char) : List ContentDetection :=
  profanityDetections transcript ++
    piiPatterns.flatMap
      (fun pr => (jsMatchAll transcript pr.2).map (mkPiiDetection transcript pr.1))

/-- The hardcoded `samplePhrases` of `simulateASR`. -/
def samplePhrases : List String :=
  ["Hi, I\x27m having trouble connecting to the wifi network.",
   "I\x27ve tried restarting my computer but it\x27s still not working.",
   "The error message says \x27Cannot connect to Campus-Secure\x27.",
   "Let me check the network adapter settings.",
   "I can see the device manager is open now.",
   "Let\x27s try updating the network driver.",
   "The driver update is installing now.",
   "Great! Now I can see the network is connected.",
   "Let me test the internet connection.",
   "Perfect, everything is working now. Thank you for your help.",
   "You\x27re welcome. Is there anything else I can help you with?",
   "No, that\x27s all for now. Have a great day!"]

/-- The `context` field of an audio chunk. -/
structure AudioChunkContext where
  sessionId : String
  language : String
  speakerDiarization : Bool
deriving DecidableEq, Repr

/-- The `AudioChunkData` interface. -/
structure AudioChunkData where
  audioData : String
  sessionId : String
  timestamp : String
  context : AudioChunkContext
deriving DecidableEq, Repr

/-- The `Math.random()` draws `processAudioChunk` consumes: the phrase
index (`Math.floor(Math.random() * samplePhrases.length)` is always a
valid index), the speaker index, and the confidence jitter
(`Math.random() * 10 - 5`). -/
structure AsrRandom where
  phraseChoice : Fin samplePhrases.length
  speakerChoice : Fin 2
  confJitter : ℚ

/-- The `ASRResult` interface (confidence as an exact rational). -/
structure ASRResult where
  transcript : String
  confidence : ℚ
  speakerTag : Option String
  timestamp : String
  isFinal : Bool
  detections : Option (List ContentDetection)

/-- `simulateASR`: a uniformly random element of `samplePhrases` — the
audio data plays no role in the choice. -/
def simulateASR (data : AudioChunkData) (phraseChoice : Fin samplePhrases.length) :
    String :=
  samplePhrases.get phraseChoice

/-- `calculateConfidence`: base 85, plus up to 10 for length, up to 5 for
word count, plus the jitter, capped at 100. -/
def calculateConfidence (transcript : String) (jitter : ℚ) : ℚ :=
  let baseConfidence : ℚ := 85
  let lengthFactor := min ((transcript.length : ℚ) / 50) 1 * 10
  let wordsCount := (transcript.splitOn " ").length
  let wordsFactor := min ((wordsCount : ℚ) / 5) 1 * 5
  min (baseConfidence + lengthFactor + wordsFactor + jitter) 100

/-- `determineSpeaker`: a uniformly random element of the two-speaker
list. -/
def determineSpeaker (data : AudioChunkData) (speakerChoice : Fin 2) : String :=
  (["Agent", "Customer"] : List String).get speakerChoice

/-- `processAudioChunk`: simulated transcript, simulated confidence,
optional speaker tag, the input timestamp, `isFinal` true, and the content
detections (omitted when empty). -/
def processAudioChunk (data : AudioChunkData) (rand : AsrRandom) : ASRResult :=
  let transcript := simulateASR data rand.phraseChoice
  let confidence := calculateConfidence transcript rand.confJitter
  let speakerTag :=
    if data.context.speakerDiarization then
      some (determineSpeaker data rand.speakerChoice)
    else none
  let detections := detectContent transcript.data
  { transcript := transcript
    confidence := confidence
    speakerTag := speakerTag
    timestamp := data.timestamp
    isFinal := true
    detections := if detections.length > 0 then some detections else none }

/-! ## PAR-N report composer (`apps/api/src/services/reportComposer.ts`)

`Date` values are modelled as the ISO strings they stringify to, and the
day-stamp computation in `generateNextSteps` (ISO string of
`Date.now() + h` hours, cut at the letter T) is modelled by an opaque
`DateOracle` mapping the hour offset to the formatted day string. -/

/-- The fields of the untyped `payload` blob that the composer reads
(`payload?.text`, `payload?.action`, `payload?.target`). -/
structure EventPayload where
  text : Option String := none
  action : Option String := none
  target : Option String := none
deriving DecidableEq, Repr

/-- The `Event` interface of `reportComposer.ts`. -/
structure SessionEvent where
  id : String
  timestamp : String
  type : String
  payload : Option EventPayload := none
  speakerTag : Option String := none
  confidence : Option Nat := none
deriving DecidableEq, Repr

/-- The `Session` interface of `reportComposer.ts` (the fields the
composer reads). -/
structure CapturedSession where
  id : String
  customerId : Option String := none
  customerName : Option String := none
  startedAt : String
  endedAt : Option String := none
  events : List SessionEvent
deriving DecidableEq, Repr

/-- An element of `PARNReport.actions`. -/
structure ActionItem where
  step : Nat
  description : String
  timestamp : Option String := none
  screenshot : Option String := none
deriving DecidableEq, Repr

/-- The `priority` union of a next step. -/
inductive Priority where
  | low
  | medium
  | high
deriving DecidableEq, Repr

/-- An element of `PARNReport.nextSteps`. -/
structure NextStep where
  description : String
  owner : Option String := none
  dueDate : Option String := none
  priority : Priority
deriving DecidableEq, Repr

/-- An element of `PARNReport.timeline`. -/
structure TimelineEntry where
  timestamp : String
  event : String
  details : Option String := none
deriving DecidableEq, Repr

/-- The `PARNReport` interface. -/
structure PARNReport where
  problem : String
  actions : List ActionItem
  result : String
  nextSteps : List NextStep
  tags : List String
  timeline : List TimelineEntry
deriving DecidableEq, Repr

/-- Opaque model of the two `Date` computations in `generateNextSteps`:
`dayAfterHours h` stands for the `YYYY-MM-DD` part of the ISO string of
`Date.now() + h` hours. -/
structure DateOracle where
  dayAfterHours : Nat → String

/-- JavaScript truthiness filter for an optional string: `undefined` and
the empty string are falsy.  Models `.filter(Boolean)` on
`Array<string | undefined>`. -/
def truthyString : Option String → Option String
  | some s => if s = "" then none else some s
  | none => none

/-- JavaScript `x || dflt` for an optional string `x`: the default is used
when `x` is `undefined` or empty. -/
def jsOrDefault (o : Option String) (dflt : String) : String :=
  match o with
  | some s => if s = "" then dflt else s
  | none => dflt

/-- The `transcripts` local of `generatePARNReport`: texts of
`asr_transcript` events, with falsy entries removed by
`.filter(Boolean)`. -/
def sessionTranscripts (s : CapturedSession) : List String :=
  ((s.events.filter (fun e => e.type == "asr_transcript")).map
      (fun e => e.payload.bind (fun p => p.text))).filterMap truthyString

/-- The shape of the `uiEvents` local of `generatePARNReport`. -/
structure UIEventView where
  timestamp : String
  action : String
  target : String
deriving DecidableEq, Repr

/-- The `uiEvents` local of `generatePARNReport`: events whose type starts
with `ui_`, mapped to `{timestamp, action, target}` with `Unknown ...`
defaults for falsy payload fields. -/
def sessionUiEvents (s : CapturedSession) : List UIEventView :=
  (s.events.filter (fun e => "ui_".isPrefixOf e.type)).map
    (fun e =>
      { timestamp := e.timestamp
        action := jsOrDefault (e.payload.bind (fun p => p.action)) "Unknown action"
        target := jsOrDefault (e.payload.bind (fun p => p.target)) "Unknown target" })

/-- `extractProblem`: keyword lookup over the joined, lowercased early
transcripts. -/
def extractProblem (earlyTranscripts : List String) : String :=
  let text := lowerStr (String.intercalate " " earlyTranscripts)
  if jsIncludes text "wifi" || jsIncludes text "wi-fi" || jsIncludes text "network" then
    "Customer experiencing WiFi connectivity issues."
  else if jsIncludes text "password" || jsIncludes text "login" || jsIncludes text "access" then
    "Customer unable to access account due to authentication issues."
  else if jsIncludes text "printer" || jsIncludes text "print" then
    "Customer experiencing printer connectivity/functionality issues."
  else if jsIncludes text "slow" || jsIncludes text "performance" then
    "Customer reporting slow system performance."
  else if jsIncludes text "email" || jsIncludes text "outlook" then
    "Customer experiencing email client issues."
  else
    "Customer reported technical issue requiring assistance."

/-- The `switch (event.action)` of `generateActions`. -/
def describeUiAction (e : UIEventView) : String :=
  match e.action with
  | "click" => "Clicked on " ++ e.target
  | "type" => "Entered information in " ++ e.target
  | "navigate" => "Navigated to " ++ e.target
  | _ => "Performed " ++ e.action ++ " on " ++ e.target

/-- The `forEach` of `generateActions`: one numbered action per UI event
while `index < 10` (so only the first ten are kept), with `stepNumber`
counting 1, 2, 3, ... over the pushed actions. -/
def uiActions (uiEvents : List UIEventView) : List ActionItem :=
  (uiEvents.take 10).enum.map
    (fun p =>
      { step := p.1 + 1
        description := describeUiAction p.2
        timestamp := some p.2.timestamp })

/-- `generateActions`: the UI-event actions, or three canned
troubleshooting steps when no UI events were captured (the `transcripts`
parameter is unused, as in the source). -/
def generateActions (uiEvents : List UIEventView) (transcripts : List String) :
    List ActionItem :=
  if (uiActions uiEvents).isEmpty then
    [ { step := 1, description := "Verified customer\x27s current system status" },
      { step := 2, description := "Gathered additional information about the issue" },
      { step := 3, description := "Applied recommended troubleshooting steps" } ]
  else
    uiActions uiEvents

/-- `extractResult`: keyword lookup over the joined, lowercased late
transcripts. -/
def extractResult (lateTranscripts : List String) : String :=
  let text := lowerStr (String.intercalate " " lateTranscripts)
  if jsIncludes text "working" || jsIncludes text "fixed" || jsIncludes text "resolved" then
    "Issue successfully resolved. Customer confirmed functionality is restored."
  else if jsIncludes text "escalate" || jsIncludes text "tier 2" || jsIncludes text "specialist" then
    "Issue requires escalation to specialist team for advanced troubleshooting."
  else if jsIncludes text "reboot" || jsIncludes text "restart" || jsIncludes text "later" then
    "Applied initial troubleshooting steps. Customer to restart system and monitor."
  else
    "Troubleshooting steps completed. Customer to test and report back if issues persist."

/-- `generateNextSteps`: exactly one next step is pushed, chosen by
keyword lookup on the result sentence. -/
def generateNextSteps (oracle : DateOracle) (problem result : String) : List NextStep :=
  if jsIncludes result "escalation" || jsIncludes result "specialist" then
    [ { description := "Escalate to Tier 2 support for advanced troubleshooting"
        owner := some "T2 Queue"
        dueDate := some (oracle.dayAfterHours 24)
        priority := .high } ]
  else if jsIncludes result "resolved" then
    [ { description := "Follow up with customer in 24 hours to ensure continued functionality"
        owner := some "T1 Queue"
        dueDate := some (oracle.dayAfterHours 24)
        priority := .low } ]
  else
    [ { description := "Monitor for customer callback within 48 hours"
        owner := some "T1 Queue"
        dueDate := some (oracle.dayAfterHours 48)
        priority := .medium } ]

/-- `extractTags`: keyword-driven tag list, deduplicated by
`[...new Set(tags)]` (the `uiEvents` parameter is unused, as in the
source). -/
def extractTags (transcripts : List String) (uiEvents : List UIEventView) : List String :=
  let text := lowerStr (String.intercalate " " transcripts)
  let tags :=
    (if jsIncludes text "wifi" || jsIncludes text "network" then ["network"] else []) ++
    (if jsIncludes text "printer" then ["printer"] else []) ++
    (if jsIncludes text "email" || jsIncludes text "outlook" then ["email"] else []) ++
    (if jsIncludes text "windows" || jsIncludes text "mac" then ["os"] else []) ++
    (if jsIncludes text "password" || jsIncludes text "login" then ["authentication"] else []) ++
    (if jsIncludes text "urgent" || jsIncludes text "critical" then ["high-priority"] else []) ++
    (if jsIncludes text "slow" || jsIncludes text "performance" then ["performance"] else []) ++
    (if jsIncludes text "resolved" || jsIncludes text "fixed" then ["resolved"] else []) ++
    (if jsIncludes text "escalate" then ["escalated"] else [])
  tags.eraseDups

/-- JavaScript `String.prototype.replace` with a plain-string pattern:
replaces the first occurrence only. -/
def jsReplaceFirst (s pat rep : String) : String :=
  match (List.range (s.data.length + 1)).find?
      (fun i => pat.data.isPrefixOf (s.data.drop i)) with
  | some i => ⟨s.data.take i ++ rep.data ++ s.data.drop (i + pat.data.length)⟩
  | none => s

/-- `formatEventForTimeline` (the speaker-tag default applies because the
JavaScript or-operator treats the empty tag as falsy). -/
def formatEventForTimeline (e : SessionEvent) : String :=
  match e.type with
  | "asr_transcript" => jsOrDefault e.speakerTag "Speaker" ++ " spoke"
  | "ui_click" => "UI interaction"
  | "window_focus" => "Window changed"
  | _ => jsReplaceFirst e.type "_" " "

/-- `e.payload?.text || e.payload?.target || undefined`. -/
def timelineDetails (p : Option EventPayload) : Option String :=
  match truthyString (p.bind (fun v => v.text)) with
  | some t => some t
  | none => truthyString (p.bind (fun v => v.target))

/-- `createTimeline`: keeps the three timeline-worthy event types, limits
to twenty entries, and formats each. -/
def createTimeline (events : List SessionEvent) : List TimelineEntry :=
  ((events.filter
        (fun e => (["asr_transcript", "ui_click", "window_focus"] : List String).contains e.type)).take
      20).map
    (fun e =>
      { timestamp := e.timestamp
        event := formatEventForTimeline e
        details := timelineDetails e.payload })

/-- JavaScript `Array.prototype.slice(-3)`: the last three elements. -/
def lastThree (l : List String) : List String :=
  l.drop (l.length - 3)

/-- `generatePARNReport`: the four PAR-N sections plus tags and timeline,
assembled from the session events as in the source. -/
def generatePARNReport (oracle : DateOracle) (session : CapturedSession) : PARNReport :=
  let transcripts := sessionTranscripts session
  let uiEvents := sessionUiEvents session
  let problem := extractProblem (transcripts.take 5)
  let actions := generateActions uiEvents transcripts
  let result := extractResult (lastThree transcripts)
  let nextSteps := generateNextSteps oracle problem result
  let tags := extractTags transcripts uiEvents
  let timeline := createTimeline session.events
  { problem := problem
    actions := actions
    result := result
    nextSteps := nextSteps
    tags := tags
    timeline := timeline }

/-! ## Mock database (`apps/api/src/database/mock-db.ts`) and API routes

Route handlers are modelled as pure functions from the database state (plus
the authenticated user and a request context carrying `request.ip` and the
generated ids/timestamps) to a response and the successor database state.
`Date.now()`-derived ids and ISO timestamps are supplied through the
context. -/

/-- The `User` row of the mock database (`role` is a plain string
there). -/
structure MockUser where
  id : String
  tenantId : String
  email : String
  name : String
  role : String
  isActive : Bool
deriving DecidableEq, Repr

/-- The `Session` row. -/
structure MockSession where
  id : String
  tenantId : String
  agentId : String
  customerId : Option String := none
  customerName : Option String := none
  status : String
  startedAt : String
  endedAt : Option String := none
  duration : Option Nat := none
deriving DecidableEq, Repr

/-- The `Report` row. -/
structure MockReport where
  id : String
  sessionId : String
  tenantId : String
  problem : Option String := none
  actions : List ActionItem := []
  result : Option String := none
  nextSteps : List NextStep := []
  tags : List String := []
  timeline : List TimelineEntry := []
  isCustomerFacing : Bool := false
deriving DecidableEq, Repr

/-- The `Event` row. -/
structure MockEvent where
  id : String
  sessionId : String
  timestamp : String
  type : String
  payload : Option EventPayload := none
  speakerTag : Option String := none
  confidence : Option Nat := none
deriving DecidableEq, Repr

/-- The `AuditLog` row. -/
structure AuditLog where
  id : String
  tenantId : String
  userId : Option String := none
  action : String
  resourceType : Option String := none
  resourceId : Option String := none
  ipAddress : Option String := none
  userAgent : Option String := none
deriving DecidableEq, Repr

/-- An `exports` row (`apps/api/src/routes/exports.ts` reads and writes
`status`, `externalId`, `deepLink`, `errorMessage`; statuses are the
string literals the route writes). -/
structure ExportRecord where
  id : String
  reportId : String
  tenantId : String
  userId : String
  target : String
  format : String
  status : String
  externalId : Option String := none
  deepLink : Option String := none
  errorMessage : Option String := none
deriving DecidableEq, Repr

/-- The in-memory store backing the API. -/
structure MockDb where
  users : List MockUser
  sessions : List MockSession
  reports : List MockReport
  events : List MockEvent
  auditLogs : List AuditLog
  exportRecords : List ExportRecord
deriving DecidableEq, Repr

/-- Request context: `request.ip` plus the fresh ids and timestamps the
handler would derive from `Date.now()`. -/
structure RequestCtx where
  ip : String
  freshId : String
  logId : String
  nowIso : String
deriving DecidableEq, Repr

/-- `findUserById`. -/
def findUserById (db : MockDb) (id : String) : Option MockUser :=
  db.users.find? (fun u => u.id == id)

/-- `findSessionById`. -/
def findSessionById (db : MockDb) (id : String) : Option MockSession :=
  db.sessions.find? (fun s => s.id == id)

/-- `findReportsByTenant`. -/
def findReportsByTenant (db : MockDb) (tenantId : String) : List MockReport :=
  db.reports.filter (fun r => r.tenantId == tenantId)

/-- `findReportById`. -/
def findReportById (db : MockDb) (id : String) : Option MockReport :=
  db.reports.find? (fun r => r.id == id)

/-- `addAuditLog` (push onto the log list). -/
def addAuditLog (db : MockDb) (log : AuditLog) : MockDb :=
  { db with auditLogs := db.auditLogs ++ [log] }

/-- A route response: the JSON value replied on success, or an error reply
with its HTTP status code. -/
inductive ApiResp (α : Type) where
  | ok (value : α)
  | err (status : Nat) (message : String)
deriving DecidableEq, Repr

/-- The agent sub-object the report routes embed. -/
structure AgentSummary where
  id : String
  name : String
  email : String
deriving DecidableEq, Repr

/-- The session sub-object the report list route embeds. -/
structure SessionSummary where
  id : String
  customerId : Option String
  customerName : Option String
  startedAt : String
  endedAt : Option String
  agent : Option AgentSummary
deriving DecidableEq, Repr

/-- A list entry of `GET /api/reports`: the report spread together with
its enrichment. -/
structure EnrichedReport where
  report : MockReport
  session : Option SessionSummary
deriving DecidableEq, Repr

/-- The reply of `GET /api/reports/:reportId`: the report spread together
with the full session and agent. -/
structure EnrichedReportFull where
  report : MockReport
  session : Option (MockSession × Option AgentSummary)
deriving DecidableEq, Repr

/-- The `.map` projection of an agent row used by the report routes. -/
def agentSummaryOf (u : MockUser) : AgentSummary :=
  { id := u.id, name := u.name, email := u.email }

/-- `GET /api/reports`: the tenant's reports, each enriched with its
session and agent. -/
def listReportsRoute (db : MockDb) (u : AuthenticatedUser) : List EnrichedReport :=
  (findReportsByTenant db u.tenantId).map
    (fun report =>
      { report := report
        session :=
          (findSessionById db report.sessionId).map
            (fun s =>
              { id := s.id
                customerId := s.customerId
                customerName := s.customerName
                startedAt := s.startedAt
                endedAt := s.endedAt
                agent := (findUserById db s.agentId).map agentSummaryOf }) })

/-- `GET /api/reports/:reportId`: 404 unless the report exists and belongs
to the requesting user's tenant; on success the enriched report is replied
and a `report_viewed` audit log is pushed. -/
def getReportRoute (db : MockDb) (u : AuthenticatedUser) (reportId : String)
    (ctx : RequestCtx) : ApiResp EnrichedReportFull × MockDb :=
  match findReportById db reportId with
  | none => (.err 404 "Report not found", db)
  | some report =>
      if report.tenantId ≠ u.tenantId then
        (.err 404 "Report not found", db)
      else
        let enriched : EnrichedReportFull :=
          { report := report
            session :=
              (findSessionById db report.sessionId).map
                (fun s => (s, (findUserById db s.agentId).map agentSummaryOf)) }
        let db' := addAuditLog db
          { id := ctx.logId
            tenantId := u.tenantId
            userId := some u.id
            action := "report_viewed"
            resourceType := some "report"
            resourceId := some reportId
            ipAddress := some ctx.ip }
        (.ok enriched, db')

/-- The events of a session, in the shape `generatePARNReport` consumes
(the route loads the session `with: { events }`). -/
def sessionEventsOf (db : MockDb) (sessionId : String) : List SessionEvent :=
  (db.events.filter (fun e => e.sessionId == sessionId)).map
    (fun e =>
      { id := e.id
        timestamp := e.timestamp
        type := e.type
        payload := e.payload
        speakerTag := e.speakerTag
        confidence := e.confidence })

/-- `POST /api/reports/:sessionId/generate`: 404 unless the session exists
in the user's tenant; if a report for the session already exists it is
replied unchanged; otherwise a PAR-N report is generated and inserted, the
session is marked completed, and a `report_generated` audit log is
pushed. -/
def generateReportRoute (oracle : DateOracle) (db : MockDb) (u : AuthenticatedUser)
    (sessionId : String) (ctx : RequestCtx) : ApiResp MockReport × MockDb :=
  match db.sessions.find? (fun s => s.id == sessionId && s.tenantId == u.tenantId) with
  | none => (.err 404 "Session not found", db)
  | some session =>
      match db.reports.find? (fun r => r.sessionId == sessionId) with
      | some existing => (.ok existing, db)
      | none =>
          let reportData := generatePARNReport oracle
            { id := session.id
              customerId := session.customerId
              customerName := session.customerName
              startedAt := session.startedAt
              endedAt := session.endedAt
              events := sessionEventsOf db sessionId }
          let report : MockReport :=
            { id := ctx.freshId
              sessionId := sessionId
              tenantId := u.tenantId
              problem := some reportData.problem
              actions := reportData.actions
              result := some reportData.result
              nextSteps := reportData.nextSteps
              tags := reportData.tags
              timeline := reportData.timeline }
          let db1 := { db with reports := db.reports ++ [report] }
          let db2 := { db1 with
            sessions := db1.sessions.map
              (fun s => if s.id == sessionId then { s with status := "completed" } else s) }
          let db3 := addAuditLog db2
            { id := ctx.logId
              tenantId := u.tenantId
              userId := some u.id
              action := "report_generated"
              resourceType := some "report"
              resourceId := some report.id
              ipAddress := some ctx.ip }
          (.ok report, db3)

/-- The `type` enum of `addEventSchema`. -/
def allowedEventTypes : List String :=
  ["asr_transcript", "asr_word", "ui_click", "ui_input_meta", "window_focus",
   "app_launch", "net_change", "ocr_text", "user_note", "privacy_pause",
   "privacy_resume"]

/-- The body of `POST /api/sessions/:sessionId/events` after JSON
parsing. -/
structure EventInput where
  timestamp : String
  type : String
  payload : Option EventPayload := none
  speakerTag : Option String := none
  confidence : Option Nat := none
deriving DecidableEq, Repr

/-- `addEventSchema` validation: the event type must be in the enum and
`confidence`, when present, at most 100 (it is a `Nat` here, so the lower
bound holds by type). -/
def eventInputValid (input : EventInput) : Bool :=
  allowedEventTypes.contains input.type &&
    (match input.confidence with
     | some c => c ≤ 100
     | none => true)

/-- `POST /api/sessions/:sessionId/events`: 400 on validation failure, 404
unless the session exists in the user's tenant, 400 when the session is
not in `recording` status, and otherwise the event is inserted. -/
def addSessionEventRoute (db : MockDb) (u : AuthenticatedUser) (sessionId : String)
    (input : EventInput) (ctx : RequestCtx) : ApiResp MockEvent × MockDb :=
  if ¬ (eventInputValid input) then
    (.err 400 "Validation error", db)
  else
    match db.sessions.find? (fun s => s.id == sessionId && s.tenantId == u.tenantId) with
    | none => (.err 404 "Session not found", db)
    | some session =>
        if session.status ≠ "recording" then
          (.err 400 "Session is not in recording state", db)
        else
          let event : MockEvent :=
            { id := ctx.freshId
              sessionId := sessionId
              timestamp := input.timestamp
              type := input.type
              payload := input.payload
              speakerTag := input.speakerTag
              confidence := input.confidence }
          (.ok event, { db with events := db.events ++ [event] })

/-! ## Export flow (`apps/api/src/routes/exports.ts`) -/

/-- The body of `POST /api/exports` after validation (`target` and
`format` are members of the zod enums). -/
structure ExportInput where
  reportId : String
  target : String
  format : String
deriving DecidableEq, Repr

/-- The `Math.random()`-derived pieces of the simulated external ids. -/
structure ExportRand where
  servicenowDigits : String
  jiraIdNum : Nat
  jiraLinkNum : Nat
  zendeskIdNum : Nat
  zendeskLinkNum : Nat
deriving DecidableEq, Repr

/-- The value `processExport` resolves with. -/
structure ExportResult where
  externalId : String
  deepLink : String
deriving DecidableEq, Repr

/-- `processExport`: the `switch (config.target)` producing a simulated
external id and deep link. -/
def processExport (exportId : String) (target format : String) (rand : ExportRand) :
    ExportResult :=
  match target with
  | "servicenow" =>
      { externalId := "INC" ++ rand.servicenowDigits
        deepLink :=
          "https://instance.service-now.com/nav_to.do?uri=incident.do?sys_id=" ++ exportId }
  | "jira" =>
      { externalId := "HELP-" ++ toString rand.jiraIdNum
        deepLink := "https://company.atlassian.net/browse/HELP-" ++ toString rand.jiraLinkNum }
  | "zendesk" =>
      { externalId := toString rand.zendeskIdNum
        deepLink :=
          "https://company.zendesk.com/agent/tickets/" ++ toString rand.zendeskLinkNum }
  | _ =>
      { externalId := "file_" ++ exportId ++ "." ++ format
        deepLink := "https://storage.reportify.com/exports/" ++ exportId ++ "." ++ format }

/-- `POST /api/exports`: 404 unless the report exists in the user's
tenant; otherwise an export record with status `pending` is inserted and
replied, and an `export_created` audit log is pushed (the deferred
`setTimeout` processing is `settleExport` below). -/
def createExportRoute (db : MockDb) (u : AuthenticatedUser) (input : ExportInput)
    (ctx : RequestCtx) : ApiResp ExportRecord × MockDb :=
  match db.reports.find? (fun r => r.id == input.reportId && r.tenantId == u.tenantId) with
  | none => (.err 404 "Report not found", db)
  | some _report =>
      let record : ExportRecord :=
        { id := ctx.freshId
          reportId := input.reportId
          tenantId := u.tenantId
          userId := u.id
          target := input.target
          format := input.format
          status := "pending" }
      let db1 := { db with exportRecords := db.exportRecords ++ [record] }
      let db2 := addAuditLog db1
        { id := ctx.logId
          tenantId := u.tenantId
          userId := some u.id
          action := "export_created"
          resourceType := some "export"
          resourceId := some record.id
          ipAddress := some ctx.ip }
      (.ok record, db2)

/-- The deferred `setTimeout` callback of `POST /api/exports`: when
`processExport` resolves, the record is updated to `completed` with
`externalId` and `deepLink`; when it rejects, to `failed` with
`errorMessage`.  The `await processExport(...)` outcome is the explicit
`Except` argument. -/
def settleExport (db : MockDb) (exportId : String)
    (outcome : Except String ExportResult) : MockDb :=
  match outcome with
  | .ok r =>
      { db with
        exportRecords := db.exportRecords.map
          (fun e =>
            if e.id == exportId then
              { e with
                status := "completed"
                externalId := some r.externalId
                deepLink := some r.deepLink }
            else e) }
  | .error m =>
      { db with
        exportRecords := db.exportRecords.map
          (fun e =>
            if e.id == exportId then
              { e with status := "failed", errorMessage := some m }
            else e) }

/-- A concrete date oracle for evaluating the composer on examples. -/
def demoDateOracle : DateOracle :=
  { dayAfterHours := fun _ => "2025-09-16" }

/-- Seed agent row (`mock-db.ts` seed data, abridged). -/
def demoAgentRow : MockUser :=
  { id := "user-2"
    tenantId := "demo-tenant-1"
    email := "agent@reportify.com"
    name := "Agent Smith"
    role := "agent"
    isActive := true }

/-- Seed session row with a finished session. -/
def demoSession1 : MockSession :=
  { id := "session-1"
    tenantId := "demo-tenant-1"
    agentId := "user-2"
    customerId := some "customer-1"
    customerName := some "John Doe"
    status := "completed"
    startedAt := "2025-09-15T09:00:00Z"
    endedAt := some "2025-09-15T09:20:00Z" }

/-- Seed session row still recording. -/
def demoSession2 : MockSession :=
  { id := "session-2"
    tenantId := "demo-tenant-1"
    agentId := "user-2"
    status := "recording"
    startedAt := "2025-09-15T11:00:00Z" }

/-- Seed report row for `session-1`. -/
def demoReport1 : MockReport :=
  { id := "report-1"
    sessionId := "session-1"
    tenantId := "demo-tenant-1"
    problem := some "Customer laptop would not connect to Wi-Fi network." }

/-- A small concrete database in the shape of the mock seed data. -/
def demoDb : MockDb :=
  { users := [demoAgentRow]
    sessions := [demoSession1, demoSession2]
    reports := [demoReport1]
    events := []
    auditLogs := []
    exportRecords := [] }

/-- A concrete request context for evaluating routes on examples. -/
def demoCtx : RequestCtx :=
  { ip := "127.0.0.1"
    freshId := "fresh-1"
    logId := "audit-1"
    nowIso := "2025-09-15T12:00:00Z" }

/-- The enrichment `GET /api/reports/:reportId` computes for
`report-1` in `demoDb`. -/
def demoEnriched1 : EnrichedReportFull :=
  { report := demoReport1
    session := some (demoSession1, some (agentSummaryOf demoAgentRow)) }

/-- A concrete valid event body. -/
def demoEventInput : EventInput :=
  { timestamp := "2025-09-15T11:01:00Z"
    type := "ui_click"
    payload := some { action := some "click", target := some "Start menu" } }

/-- A concrete export request for `report-1`. -/
def demoExportInput : ExportInput :=
  { reportId := "report-1"
    target := "servicenow"
    format := "pdf" }

/-- The pending export record `POST /api/exports` inserts for
`demoExportInput` in `demoDb`. -/
def demoExportPending : ExportRecord :=
  { id := "fresh-1"
    reportId := "report-1"
    tenantId := "demo-tenant-1"
    userId := "user-1"
    target := "servicenow"
    format := "pdf"
    status := "pending" }

/-- The record after the deferred step fails with `Unknown error`. -/
def demoExportFailed : ExportRecord :=
  { demoExportPending with
    status := "failed"
    errorMessage := some "Unknown error" }

/-- A concrete transcript containing one SSN. -/
def demoTranscript : List Char :=
  "My SSN is 123-45-6789.".data

/-- The SSN detection the content detector finds in `demoTranscript`. -/
def demoSsnDetection : ContentDetection :=
  { type := .pii_ssn
    text := "123-45-6789".data
    confidence := 90
    startOffset := 10
    endOffset := 21 }

/-- Count of stored reports attached to one session. -/
def reportCountFor (sessionId : String) (rs : List MockReport) : Nat :=
  (rs.filter (fun r => r.sessionId == sessionId)).length

/-- A session with no events at all: the degenerate input the composer
must still fill all four sections for. -/
def emptySession : CapturedSession :=
  { id := "session-empty"
    startedAt := "2025-09-15T10:00:00Z"
    events := [] }

/-- The reordering property claimed of the queue: some interleaving of
`addJob` calls and processor steps processes jobs in an order that is not
just the added order cut off at the point processing has reached (i.e.
the processed history is not an initial segment of the added history). -/
def queueReorderingPossible : Prop :=
  ∃ ops : List QueueOp,
    ¬ ∃ waiting : List String,
        (queueRun ops).addedOrder = (queueRun ops).processedOrder ++ waiting

end Reportify

namespace Reportify

/-! ## Theorems -/

/-- Helper: the queue invariant preserved by every step — the added
history is exactly the processed history followed by the ids still
pending, and every pending id is a known job id. -/
def QueueInv (st : QueueState) : Prop :=
  st.addedOrder = st.processedOrder ++ st.processingQueue ∧
    ∀ j ∈ st.processingQueue, j ∈ st.jobIds

theorem queueStep_inv (st : QueueState) (op : QueueOp) (h : QueueInv st) :
    QueueInv (queueStep st op) := by
  obtain ⟨horder, hknown⟩ := h
  cases op with
  | add j =>
      refine ⟨by simp [queueStep, horder], ?_⟩
      intro x hx
      simp only [queueStep, List.mem_append, List.mem_singleton] at hx ⊢
      rcases hx with hx | hx
      · exact Or.inl (hknown x hx)
      · exact Or.inr hx
  | tick =>
      cases hq : st.processingQueue with
      | nil =>
          simp only [queueStep, hq]
          exact ⟨horder, hknown⟩
      | cons j rest =>
          have hj : j ∈ st.jobIds := hknown j (by simp [hq])
          refine ⟨?_, ?_⟩
          · simp [queueStep, hq, hj, horder]
          · intro x hx
            simp only [queueStep, hq] at hx ⊢
            rw [if_pos (List.elem_iff.mpr hj)] at hx ⊢
            exact hknown x (by rw [hq]; exact List.mem_cons_of_mem _ hx)

theorem queueFoldl_inv (ops : List QueueOp) (st : QueueState) (h : QueueInv st) :
    QueueInv (ops.foldl queueStep st) := by
  induction ops generalizing st with
  | nil => simpa using h
  | cons op ops ih => exact ih _ (queueStep_inv st op h)

theorem queueRun_inv (ops : List QueueOp) : QueueInv (queueRun ops) := by
  have base : QueueInv initQueueState := by
    constructor
    · simp [initQueueState]
    · intro j hj; simp [initQueueState] at hj
  exact queueFoldl_inv ops initQueueState base

/-- C5 (counterexample): the claim that the polling loop admits a
reordering — some interleaving of `addJob` calls and processor steps whose
processed order is not an initial segment of the added order — is false:
`addJob` pushes at the back, the processor `shift`s from the front, and
processing is awaited one job at a time, so no interleaving reorders. -/
theorem transcriptionQueue_no_reordering : ¬ queueReorderingPossible := by
  intro ⟨ops, hops⟩
  exact hops ⟨(queueRun ops).processingQueue, (queueRun_inv ops).1⟩

/-- C5 (amended): the transcription queue is FIFO — for every interleaving
of `addJob` calls and processor steps, the sequence of jobs the processor
has dequeued and processed is an initial segment of the sequence of jobs
added, in the same order (the remainder being the ids still pending). -/
theorem transcriptionQueue_fifo (ops : List QueueOp) :
    (queueRun ops).addedOrder =
      (queueRun ops).processedOrder ++ (queueRun ops).processingQueue := by
  exact (queueRun_inv ops).1

/-- C5 witness: the FIFO theorem evaluated on a concrete interleaving. -/
theorem transcriptionQueue_fifo_witness :
    (queueRun [.add "job_a", .add "job_b", .tick, .add "job_c", .tick]).addedOrder =
      (queueRun [.add "job_a", .add "job_b", .tick, .add "job_c", .tick]).processedOrder ++
        (queueRun [.add "job_a", .add "job_b", .tick, .add "job_c", .tick]).processingQueue :=
  transcriptionQueue_fifo [.add "job_a", .add "job_b", .tick, .add "job_c", .tick]

/-- Helper: one `statsStep` adds exactly one to the four status counters
and leaves `totalJobs` unchanged. -/
theorem statsStep_counters (stats : QueueStats) (job : TranscriptionJob) :
    (statsStep stats job).queuedJobs + (statsStep stats job).processingJobs +
        (statsStep stats job).completedJobs + (statsStep stats job).failedJobs =
      (stats.queuedJobs + stats.processingJobs + stats.completedJobs + stats.failedJobs) + 1 ∧
    (statsStep stats job).totalJobs = stats.totalJobs := by
  cases h : job.status <;> simp [statsStep, h] <;> omega

/-- Helper: folding `statsStep` over a job list adds the list length to the
counter sum and leaves `totalJobs` unchanged. -/
theorem statsFoldl_counters (jobs : List TranscriptionJob) (init : QueueStats) :
    (jobs.foldl statsStep init).queuedJobs + (jobs.foldl statsStep init).processingJobs +
        (jobs.foldl statsStep init).completedJobs + (jobs.foldl statsStep init).failedJobs =
      (init.queuedJobs + init.processingJobs + init.completedJobs + init.failedJobs) +
        jobs.length ∧
    (jobs.foldl statsStep init).totalJobs = init.totalJobs := by
  induction jobs generalizing init with
  | nil => simp
  | cons job rest ih =>
      obtain ⟨hsum, htotal⟩ := statsStep_counters init job
      obtain ⟨ihsum, ihtotal⟩ := ih (statsStep init job)
      constructor
      · simp only [List.foldl_cons, List.length_cons]
        omega
      · simp only [List.foldl_cons, ihtotal, htotal]

/-- C10: in every state of the transcription queue (each job having one of
the four statuses), `getQueueStats` returns counts with
`totalJobs = queuedJobs + processingJobs + completedJobs + failedJobs`. -/
theorem getQueueStats_total_eq_sum (jobs : List TranscriptionJob) :
    (getQueueStats jobs).totalJobs =
      (getQueueStats jobs).queuedJobs + (getQueueStats jobs).processingJobs +
        (getQueueStats jobs).completedJobs + (getQueueStats jobs).failedJobs := by
  unfold getQueueStats
  obtain ⟨hsum, htotal⟩ :=
    statsFoldl_counters jobs
      { totalJobs := jobs.length, queuedJobs := 0, processingJobs := 0,
        completedJobs := 0, failedJobs := 0 }
  simp only [htotal, hsum]
  omega

/-- C7: the `requireRole` guard replies 401 when the request carries no
authenticated user, replies 403 exactly when the user's role is not in the
allowed list, and otherwise falls through to the handler. -/
theorem requireRole_guard (allowed : List Role) (u : AuthenticatedUser) :
    requireRole allowed none = .reject 401 "Authentication required" ∧
    (requireRole allowed (some u) = .reject 403 "Insufficient permissions" ↔
      u.role ∉ allowed) ∧
    (requireRole allowed (some u) = .proceed ↔ u.role ∈ allowed) := by
  refine ⟨rfl, ?_, ?_⟩ <;>
    by_cases h : u.role ∈ allowed <;>
      simp [requireRole, List.elem_iff.mpr, h, List.elem_iff]

/-- C7 witness: the guard evaluated for the seed admin user against an
admin-only allow list, and for a missing user. -/
theorem requireRole_guard_witness :
    requireRole [Role.admin] none = .reject 401 "Authentication required" ∧
    (requireRole [Role.admin] (some demoAdminUser) =
        .reject 403 "Insufficient permissions" ↔ demoAdminUser.role ∉ [Role.admin]) ∧
    (requireRole [Role.admin] (some demoAdminUser) = .proceed ↔
      demoAdminUser.role ∈ [Role.admin]) :=
  requireRole_guard [Role.admin] demoAdminUser

/-- Helper: `extractProblem` never returns the empty string — every branch
is a fixed non-empty sentence. -/
theorem extractProblem_ne_empty (ts : List String) : extractProblem ts ≠ "" := by
  simp only [extractProblem]
  split_ifs <;> decide

/-- Helper: `extractResult` never returns the empty string. -/
theorem extractResult_ne_empty (ts : List String) : extractResult ts ≠ "" := by
  simp only [extractResult]
  split_ifs <;> decide

/-- Helper: `generateNextSteps` always pushes exactly one next step. -/
theorem generateNextSteps_ne_nil (oracle : DateOracle) (p r : String) :
    generateNextSteps oracle p r ≠ [] := by
  simp only [generateNextSteps]
  split_ifs <;> simp

/-- Helper: the UI-event actions are numbered 1, 2, 3, ... in order. -/
theorem uiActions_step (ui : List UIEventView) (i : Nat) (a : ActionItem)
    (h : (uiActions ui)[i]? = some a) : a.step = i + 1 := by
  unfold uiActions at h
  rw [List.getElem?_map, List.getElem?_enum] at h
  cases he : (ui.take 10)[i]? with
  | none => rw [he] at h; simp at h
  | some e =>
      rw [he] at h
      have h' : some (⟨i + 1, describeUiAction e, some e.timestamp, none⟩ : ActionItem)
          = some a := h
      cases h'
      rfl

/-- Helper: `generateActions` never returns the empty list, and its
entries are numbered consecutively from 1. -/
theorem generateActions_spec (ui : List UIEventView) (ts : List String) :
    generateActions ui ts ≠ [] ∧
      ∀ (i : Nat) (a : ActionItem),
        (generateActions ui ts)[i]? = some a → a.step = i + 1 := by
  unfold generateActions
  by_cases h : (uiActions ui).isEmpty
  · rw [if_pos h]
    refine ⟨by simp, ?_⟩
    intro i a ha
    match i, ha with
    | 0, ha => cases ha; rfl
    | 1, ha => cases ha; rfl
    | 2, ha => cases ha; rfl
    | n + 3, ha => simp at ha
  · rw [if_neg h]
    refine ⟨by simpa using h, fun i a ha => uiActions_step ui i a ha⟩

/-- C1: for every session (any event list, including none), the generated
PAR-N report populates all four sections: the problem sentence is
non-empty, the action list is non-empty with steps numbered 1, 2, 3, ...,
the result sentence is non-empty, and the next-step list is non-empty —
canned defaults being used when no transcripts or UI events exist. -/
theorem generatePARNReport_sections (oracle : DateOracle) (session : CapturedSession) :
    (generatePARNReport oracle session).problem ≠ "" ∧
    (generatePARNReport oracle session).actions ≠ [] ∧
    (∀ (i : Nat) (a : ActionItem),
      (generatePARNReport oracle session).actions[i]? = some a → a.step = i + 1) ∧
    (generatePARNReport oracle session).result ≠ "" ∧
    (generatePARNReport oracle session).nextSteps ≠ [] := by
  obtain ⟨hne, hnum⟩ := generateActions_spec (sessionUiEvents session) (sessionTranscripts session)
  simp only [generatePARNReport]
  exact ⟨extractProblem_ne_empty _, hne, hnum, extractResult_ne_empty _,
    generateNextSteps_ne_nil _ _ _⟩

/-- C1 witness: the section guarantees evaluated on the empty session. -/
theorem generatePARNReport_sections_witness :
    (generatePARNReport demoDateOracle emptySession).problem ≠ "" ∧
    (generatePARNReport demoDateOracle emptySession).actions ≠ [] ∧
    (∀ (i : Nat) (a : ActionItem),
      (generatePARNReport demoDateOracle emptySession).actions[i]? = some a →
        a.step = i + 1) ∧
    (generatePARNReport demoDateOracle emptySession).result ≠ "" ∧
    (generatePARNReport demoDateOracle emptySession).nextSteps ≠ [] :=
  generatePARNReport_sections demoDateOracle emptySession

/-- C2: report reads are tenant-scoped — every entry of the report list is
a report of the requesting user's tenant; a single-report read only ever
replies a report of the user's tenant; and a report id that does not
resolve to a report of the user's tenant (missing, or belonging to another
tenant) is answered 404 with no report data. -/
theorem report_routes_tenant_isolation (db : MockDb) (u : AuthenticatedUser) :
    (∀ er ∈ listReportsRoute db u, er.report.tenantId = u.tenantId) ∧
    (∀ (reportId : String) (ctx : RequestCtx) (er : EnrichedReportFull),
        (getReportRoute db u reportId ctx).1 = .ok er →
          er.report.tenantId = u.tenantId) ∧
    (∀ (reportId : String) (ctx : RequestCtx),
        (∀ r, findReportById db reportId = some r → r.tenantId ≠ u.tenantId) →
          (getReportRoute db u reportId ctx).1 = .err 404 "Report not found") := by
  refine ⟨?_, ?_, ?_⟩
  · intro er her
    unfold listReportsRoute at her
    obtain ⟨r, hr, rfl⟩ := List.mem_map.mp her
    exact eq_of_beq (List.mem_filter.mp hr).2
  · intro reportId ctx er h
    cases hf : findReportById db reportId with
    | none => simp [getReportRoute, hf] at h
    | some report =>
        by_cases ht : report.tenantId = u.tenantId
        · have ht' : ¬ report.tenantId ≠ u.tenantId := by simp [ht]
          simp only [getReportRoute, hf, if_neg ht'] at h
          have h' : er.report = report := by
            have := congrArg
              (fun r : ApiResp EnrichedReportFull =>
                match r with
                | .ok v => v.report
                | .err _ _ => report) h
            simpa using this.symm
          rw [h']
          exact ht
        · have ht' : report.tenantId ≠ u.tenantId := ht
          simp only [getReportRoute, hf, if_pos ht'] at h
          exact absurd h (by simp)
  · intro reportId ctx hmiss
    cases hf : findReportById db reportId with
    | none => simp [getReportRoute, hf]
    | some r => simp [getReportRoute, hf, hmiss r hf]

/-- C2 witness: the routes evaluated on the demo database — the seed
report resolves to an enriched reply within the tenant, and an unknown id
is answered 404. -/
theorem report_routes_tenant_isolation_witness :
    demoEnriched1.report.tenantId = demoAdminUser.tenantId ∧
    (getReportRoute demoDb demoAdminUser "missing-report" demoCtx).1 =
      .err 404 "Report not found" :=
  ⟨(report_routes_tenant_isolation demoDb demoAdminUser).2.1 "report-1" demoCtx
      demoEnriched1 (by decide),
   (report_routes_tenant_isolation demoDb demoAdminUser).2.2 "missing-report" demoCtx
      (fun r h => by
        have hn : findReportById demoDb "missing-report" = none := by decide
        rw [hn] at h
        exact Option.noConfusion h)⟩

/-- Helper: when some report for the session already exists (or the
session does not resolve), the generate route inserts nothing. -/
theorem generateReportRoute_no_insert (oracle : DateOracle) (db : MockDb)
    (u : AuthenticatedUser) (sessionId : String) (ctx : RequestCtx)
    (h : db.reports.find? (fun r => r.sessionId == sessionId) ≠ none) :
    ((generateReportRoute oracle db u sessionId ctx).2).reports = db.reports := by
  cases hs : db.sessions.find? (fun x => x.id == sessionId && x.tenantId == u.tenantId) with
  | none => simp [generateReportRoute, hs]
  | some s =>
      cases hr : db.reports.find? (fun r => r.sessionId == sessionId) with
      | none => exact absurd hr h
      | some r => simp [generateReportRoute, hs, hr]

/-- Helper: on the create path the route appends exactly one report, and
that report carries the session id. -/
theorem generateReportRoute_create_reports (oracle : DateOracle) (db : MockDb)
    (u : AuthenticatedUser) (sessionId : String) (ctx : RequestCtx) (s : MockSession)
    (hs : db.sessions.find? (fun x => x.id == sessionId && x.tenantId == u.tenantId) = some s)
    (hr : db.reports.find? (fun r => r.sessionId == sessionId) = none) :
    ∃ rep : MockReport, rep.sessionId = sessionId ∧
      ((generateReportRoute oracle db u sessionId ctx).2).reports = db.reports ++ [rep] := by
  simp only [generateReportRoute, hs, hr]
  exact ⟨_, rfl, rfl⟩

/-- C8: `POST /api/reports/:sessionId/generate` is idempotent on the
stored reports — running it a second time changes nothing; when a report
already exists for the session (and the session resolves) the existing
report is replied with the database untouched; and the endpoint never
brings the number of reports of a session above `max 1` its current
count. -/
theorem generateReport_idempotent (oracle : DateOracle) (db : MockDb)
    (u : AuthenticatedUser) (sessionId : String) (ctx1 ctx2 : RequestCtx) :
    ((generateReportRoute oracle
          (generateReportRoute oracle db u sessionId ctx1).2 u sessionId ctx2).2).reports =
        ((generateReportRoute oracle db u sessionId ctx1).2).reports ∧
    (∀ s r,
        db.sessions.find? (fun x => x.id == sessionId && x.tenantId == u.tenantId) = some s →
        db.reports.find? (fun x => x.sessionId == sessionId) = some r →
          generateReportRoute oracle db u sessionId ctx1 = (.ok r, db)) ∧
    reportCountFor sessionId ((generateReportRoute oracle db u sessionId ctx1).2).reports ≤
      max 1 (reportCountFor sessionId db.reports) := by
  refine ⟨?_, ?_, ?_⟩
  · cases hs : db.sessions.find? (fun x => x.id == sessionId && x.tenantId == u.tenantId) with
    | none =>
        have h1 : generateReportRoute oracle db u sessionId ctx1 = (.err 404 "Session not found", db) := by
          simp [generateReportRoute, hs]
        rw [h1]
        show ((generateReportRoute oracle db u sessionId ctx2).2).reports = db.reports
        simp [generateReportRoute, hs]
    | some s =>
        cases hr : db.reports.find? (fun r => r.sessionId == sessionId) with
        | some r =>
            have h1 : generateReportRoute oracle db u sessionId ctx1 = (.ok r, db) := by
              simp [generateReportRoute, hs, hr]
            rw [h1]
            show ((generateReportRoute oracle db u sessionId ctx2).2).reports = db.reports
            simp [generateReportRoute, hs, hr]
        | none =>
            obtain ⟨rep, hrep, hreports⟩ :=
              generateReportRoute_create_reports oracle db u sessionId ctx1 s hs hr
            have hne :
                ((generateReportRoute oracle db u sessionId ctx1).2).reports.find?
                    (fun r => r.sessionId == sessionId) ≠ none := by
              rw [hreports, List.find?_append, hr]
              simp [hrep]
            exact generateReportRoute_no_insert oracle _ u sessionId ctx2 hne
  · intro s r hs hr
    simp [generateReportRoute, hs, hr]
  · cases hs : db.sessions.find? (fun x => x.id == sessionId && x.tenantId == u.tenantId) with
    | none =>
        simp only [generateReportRoute, hs]
        exact le_max_of_le_right (le_refl _)
    | some s =>
        cases hr : db.reports.find? (fun x => x.sessionId == sessionId) with
        | some r =>
            simp only [generateReportRoute, hs, hr]
            exact le_max_of_le_right (le_refl _)
        | none =>
            obtain ⟨rep, hrep, hreports⟩ :=
              generateReportRoute_create_reports oracle db u sessionId ctx1 s hs hr
            have hnil : db.reports.filter (fun r => r.sessionId == sessionId) = [] := by
              apply List.filter_eq_nil_iff.mpr
              intro r hrmem
              have := List.find?_eq_none.mp hr r hrmem
              simpa using this
            unfold reportCountFor
            rw [hreports, List.filter_append, hnil]
            simp [hrep]

/-- C8 witness: generating for the seed session (which already has
`report-1`) replies the existing report and leaves the database
untouched. -/
theorem generateReport_idempotent_witness :
    generateReportRoute demoDateOracle demoDb demoAdminUser "session-1" demoCtx =
      (.ok demoReport1, demoDb) :=
  (generateReport_idempotent demoDateOracle demoDb demoAdminUser "session-1" demoCtx
      demoCtx).2.1 demoSession1 demoReport1 (by decide) (by decide)

/-- C9: `POST /api/sessions/:sessionId/events` appends an event only to a
session in `recording` status — a resolved session in any other status is
answered 400 with the event list untouched, and whenever the stored events
change, the session resolved and was recording. -/
theorem addSessionEvent_only_recording (db : MockDb) (u : AuthenticatedUser)
    (sessionId : String) (input : EventInput) (ctx : RequestCtx) :
    (∀ s,
        db.sessions.find? (fun x => x.id == sessionId && x.tenantId == u.tenantId) = some s →
        s.status ≠ "recording" → eventInputValid input = true →
          addSessionEventRoute db u sessionId input ctx =
            (.err 400 "Session is not in recording state", db)) ∧
    ((addSessionEventRoute db u sessionId input ctx).2.events ≠ db.events →
      ∃ s,
        db.sessions.find? (fun x => x.id == sessionId && x.tenantId == u.tenantId) = some s ∧
          s.status = "recording") := by
  constructor
  · intro s hs hstatus hvalid
    simp [addSessionEventRoute, hvalid, hs, hstatus]
  · intro hchanged
    by_cases hvalid : eventInputValid input
    · cases hs : db.sessions.find? (fun x => x.id == sessionId && x.tenantId == u.tenantId) with
      | none =>
          exfalso
          apply hchanged
          simp [addSessionEventRoute, hvalid, hs]
      | some s =>
          by_cases hstatus : s.status = "recording"
          · exact ⟨s, rfl, hstatus⟩
          · exfalso
            apply hchanged
            simp [addSessionEventRoute, hvalid, hs, hstatus]
    · exfalso
      apply hchanged
      simp [addSessionEventRoute, hvalid]

/-- C9 witness: posting a valid event to the seed session that is already
`completed` is answered 400 and stores nothing. -/
theorem addSessionEvent_only_recording_witness :
    addSessionEventRoute demoDb demoAdminUser "session-1" demoEventInput demoCtx =
      (.err 400 "Session is not in recording state", demoDb) :=
  (addSessionEvent_only_recording demoDb demoAdminUser "session-1" demoEventInput
      demoCtx).1 demoSession1 (by decide) (by decide) (by decide)

/-- C3: every transcript the streaming path produces is one of the twelve
hardcoded sample phrases, whatever the audio chunk and random draws. -/
theorem processAudioChunk_transcript_sample (data : AudioChunkData) (rand : AsrRandom) :
    (processAudioChunk data rand).transcript ∈ samplePhrases := by
  simp only [processAudioChunk, simulateASR]
  exact List.get_mem samplePhrases rand.phraseChoice.1 rand.phraseChoice.2

/-- Helper: every profanity detection carries the `profanity` type. -/
theorem profanityDetections_type (t : List Char) (d : ContentDetection)
    (h : d ∈ profanityDetections t) : d.type = .profanity := by
  unfold profanityDetections at h
  obtain ⟨w, _, rfl⟩ := List.mem_map.mp h
  rfl

/-- Helper: filtering the profanity detections for a PII type yields
nothing. -/
theorem profanityDetections_filter (t : List Char) (ty : DetectionType)
    (h : ty ≠ .profanity) :
    (profanityDetections t).filter (fun d => d.type == ty) = [] := by
  apply List.filter_eq_nil_iff.mpr
  intro d hd
  rw [profanityDetections_type t d hd]
  simp
  exact fun e => h e.symm

/-- Helper: taking again by the length of a take changes nothing. -/
theorem take_length_take (X : List Char) (k : Nat) :
    X.take ((X.take k).length) = X.take k := by
  rw [List.length_take]
  rcases le_total k X.length with h | h
  · rw [min_eq_left h]
  · rw [min_eq_right h, List.take_all_of_le h, List.take_all_of_le (le_refl _)]

/-- Helper: every constructed PII detection satisfies the slice
property. -/
theorem mkPiiDetection_slice (t : List Char) (ty : DetectionType) (m : Nat × Nat) :
    extractRange t (mkPiiDetection t ty m).startOffset (mkPiiDetection t ty m).endOffset =
        (mkPiiDetection t ty m).text ∧
      (mkPiiDetection t ty m).endOffset =
        (mkPiiDetection t ty m).startOffset + (mkPiiDetection t ty m).text.length := by
  refine ⟨?_, rfl⟩
  show extractRange t m.1 (m.1 + (extractRange t m.1 m.2).length) = extractRange t m.1 m.2
  unfold extractRange
  rw [Nat.add_sub_cancel_left]
  exact take_length_take _ _

/-- Helper: filtering a PII block for its own type keeps it whole. -/
theorem piiBlock_filter_self (t : List Char) (re : RE) (ty : DetectionType) :
    ((jsMatchAll t re).map (mkPiiDetection t ty)).filter (fun d => d.type == ty) =
      (jsMatchAll t re).map (mkPiiDetection t ty) := by
  rw [List.map_filter]
  congr 1
  apply List.filter_eq_self.mpr
  intro m _
  simp [Function.comp, mkPiiDetection]

/-- Helper: filtering a PII block for a different type yields nothing. -/
theorem piiBlock_filter_other (t : List Char) (re : RE) (ty ty' : DetectionType)
    (h : ty ≠ ty') :
    ((jsMatchAll t re).map (mkPiiDetection t ty)).filter (fun d => d.type == ty') = [] := by
  rw [List.map_filter]
  rw [List.filter_eq_nil_iff.mpr, List.map_nil]
  intro m _
  simp [Function.comp, mkPiiDetection]
  exact h

/-- Helper: filtering a five-block append where only the first
pattern block survives (abstract lists, so no block gets unfolded). -/
theorem filter_blocks_first (P : ContentDetection → Bool)
    (prof A B C D : List ContentDetection)
    (hprof : prof.filter P = []) (hA : A.filter P = A) (hB : B.filter P = [])
    (hC : C.filter P = []) (hD : D.filter P = []) :
    (prof ++ (A ++ (B ++ (C ++ (D ++ []))))).filter P = A := by
  simp [List.filter_append, hprof, hA, hB, hC, hD]

/-- Helper: only the second pattern block survives. -/
theorem filter_blocks_second (P : ContentDetection → Bool)
    (prof A B C D : List ContentDetection)
    (hprof : prof.filter P = []) (hA : A.filter P = []) (hB : B.filter P = B)
    (hC : C.filter P = []) (hD : D.filter P = []) :
    (prof ++ (A ++ (B ++ (C ++ (D ++ []))))).filter P = B := by
  simp [List.filter_append, hprof, hA, hB, hC, hD]

/-- Helper: only the third pattern block survives. -/
theorem filter_blocks_third (P : ContentDetection → Bool)
    (prof A B C D : List ContentDetection)
    (hprof : prof.filter P = []) (hA : A.filter P = []) (hB : B.filter P = [])
    (hC : C.filter P = C) (hD : D.filter P = []) :
    (prof ++ (A ++ (B ++ (C ++ (D ++ []))))).filter P = C := by
  simp [List.filter_append, hprof, hA, hB, hC, hD]

/-- Helper: only the fourth pattern block survives. -/
theorem filter_blocks_fourth (P : ContentDetection → Bool)
    (prof A B C D : List ContentDetection)
    (hprof : prof.filter P = []) (hA : A.filter P = []) (hB : B.filter P = [])
    (hC : C.filter P = []) (hD : D.filter P = D) :
    (prof ++ (A ++ (B ++ (C ++ (D ++ []))))).filter P = D := by
  simp [List.filter_append, hprof, hA, hB, hC, hD]

/-- Helper: the email filter equation of `detectContent`. -/
theorem detectContent_filter_email (t : List Char) :
    (detectContent t).filter (fun d => d.type == DetectionType.pii_email) =
      (jsMatchAll t emailRE).map (mkPiiDetection t .pii_email) :=
  filter_blocks_first (fun d => d.type == DetectionType.pii_email)
    (profanityDetections t)
    ((jsMatchAll t emailRE).map (mkPiiDetection t .pii_email))
    ((jsMatchAll t phoneRE).map (mkPiiDetection t .pii_phone))
    ((jsMatchAll t ssnRE).map (mkPiiDetection t .pii_ssn))
    ((jsMatchAll t ccRE).map (mkPiiDetection t .pii_credit_card))
    (profanityDetections_filter t _ (by decide))
    (piiBlock_filter_self t emailRE _)
    (piiBlock_filter_other t phoneRE _ _ (by decide))
    (piiBlock_filter_other t ssnRE _ _ (by decide))
    (piiBlock_filter_other t ccRE _ _ (by decide))

/-- Helper: the phone filter equation of `detectContent`. -/
theorem detectContent_filter_phone (t : List Char) :
    (detectContent t).filter (fun d => d.type == DetectionType.pii_phone) =
      (jsMatchAll t phoneRE).map (mkPiiDetection t .pii_phone) :=
  filter_blocks_second (fun d => d.type == DetectionType.pii_phone)
    (profanityDetections t)
    ((jsMatchAll t emailRE).map (mkPiiDetection t .pii_email))
    ((jsMatchAll t phoneRE).map (mkPiiDetection t .pii_phone))
    ((jsMatchAll t ssnRE).map (mkPiiDetection t .pii_ssn))
    ((jsMatchAll t ccRE).map (mkPiiDetection t .pii_credit_card))
    (profanityDetections_filter t _ (by decide))
    (piiBlock_filter_other t emailRE _ _ (by decide))
    (piiBlock_filter_self t phoneRE _)
    (piiBlock_filter_other t ssnRE _ _ (by decide))
    (piiBlock_filter_other t ccRE _ _ (by decide))

/-- Helper: the SSN filter equation of `detectContent`. -/
theorem detectContent_filter_ssn (t : List Char) :
    (detectContent t).filter (fun d => d.type == DetectionType.pii_ssn) =
      (jsMatchAll t ssnRE).map (mkPiiDetection t .pii_ssn) :=
  filter_blocks_third (fun d => d.type == DetectionType.pii_ssn)
    (profanityDetections t)
    ((jsMatchAll t emailRE).map (mkPiiDetection t .pii_email))
    ((jsMatchAll t phoneRE).map (mkPiiDetection t .pii_phone))
    ((jsMatchAll t ssnRE).map (mkPiiDetection t .pii_ssn))
    ((jsMatchAll t ccRE).map (mkPiiDetection t .pii_credit_card))
    (profanityDetections_filter t _ (by decide))
    (piiBlock_filter_other t emailRE _ _ (by decide))
    (piiBlock_filter_other t phoneRE _ _ (by decide))
    (piiBlock_filter_self t ssnRE _)
    (piiBlock_filter_other t ccRE _ _ (by decide))

/-- Helper: the credit-card filter equation of `detectContent`. -/
theorem detectContent_filter_cc (t : List Char) :
    (detectContent t).filter (fun d => d.type == DetectionType.pii_credit_card) =
      (jsMatchAll t ccRE).map (mkPiiDetection t .pii_credit_card) :=
  filter_blocks_fourth (fun d => d.type == DetectionType.pii_credit_card)
    (profanityDetections t)
    ((jsMatchAll t emailRE).map (mkPiiDetection t .pii_email))
    ((jsMatchAll t phoneRE).map (mkPiiDetection t .pii_phone))
    ((jsMatchAll t ssnRE).map (mkPiiDetection t .pii_ssn))
    ((jsMatchAll t ccRE).map (mkPiiDetection t .pii_credit_card))
    (profanityDetections_filter t _ (by decide))
    (piiBlock_filter_other t emailRE _ _ (by decide))
    (piiBlock_filter_other t phoneRE _ _ (by decide))
    (piiBlock_filter_other t ssnRE _ _ (by decide))
    (piiBlock_filter_self t ccRE _)

/-- C4: the content detector emits, for each of the four PII patterns,
exactly one detection of the corresponding `pii_` type per global-scan
regex match (in scan order), and every PII detection satisfies the
offset/text consistency: the slice of the transcript from `startOffset` to
`endOffset` is the detection's `text`, with
`endOffset = startOffset + text.length`. -/
theorem detectContent_pii_matches (t : List Char) :
    ((detectContent t).filter (fun d => d.type == DetectionType.pii_email) =
        (jsMatchAll t emailRE).map (mkPiiDetection t .pii_email)) ∧
    ((detectContent t).filter (fun d => d.type == DetectionType.pii_phone) =
        (jsMatchAll t phoneRE).map (mkPiiDetection t .pii_phone)) ∧
    ((detectContent t).filter (fun d => d.type == DetectionType.pii_ssn) =
        (jsMatchAll t ssnRE).map (mkPiiDetection t .pii_ssn)) ∧
    ((detectContent t).filter (fun d => d.type == DetectionType.pii_credit_card) =
        (jsMatchAll t ccRE).map (mkPiiDetection t .pii_credit_card)) ∧
    (∀ d ∈ detectContent t,
        (d.type = .pii_email ∨ d.type = .pii_phone ∨ d.type = .pii_ssn ∨
            d.type = .pii_credit_card) →
          extractRange t d.startOffset d.endOffset = d.text ∧
            d.endOffset = d.startOffset + d.text.length) := by
  refine ⟨detectContent_filter_email t, detectContent_filter_phone t,
    detectContent_filter_ssn t, detectContent_filter_cc t, ?_⟩
  intro d hd hty
  unfold detectContent at hd
  rw [List.mem_append] at hd
  rcases hd with hd | hd
  · have := profanityDetections_type t d hd
    rcases hty with h | h | h | h <;> rw [h] at this <;> exact absurd this (by decide)
  · rw [List.mem_flatMap] at hd
    obtain ⟨pr, _, hd⟩ := hd
    obtain ⟨m, _, rfl⟩ := List.mem_map.mp hd
    exact mkPiiDetection_slice t pr.1 m

/-- C4 witness: the detector evaluated on a concrete transcript with one
SSN — the `pii_ssn` detections are exactly the one scan match, and the
found detection satisfies the slice property. -/
theorem detectContent_pii_matches_witness :
    ((detectContent demoTranscript).filter (fun d => d.type == DetectionType.pii_ssn) =
        (jsMatchAll demoTranscript ssnRE).map (mkPiiDetection demoTranscript .pii_ssn)) ∧
    (extractRange demoTranscript demoSsnDetection.startOffset demoSsnDetection.endOffset =
        demoSsnDetection.text ∧
      demoSsnDetection.endOffset =
        demoSsnDetection.startOffset + demoSsnDetection.text.length) :=
  ⟨(detectContent_pii_matches demoTranscript).2.2.1,
   (detectContent_pii_matches demoTranscript).2.2.2.2 demoSsnDetection (by decide)
      (Or.inr (Or.inr (Or.inl rfl)))⟩

/-- C6: a successful `POST /api/exports` replies a record in status
`pending` with no external linkage yet, and the deferred `setTimeout`
step moves that record to exactly one of two terminal states — `completed`
with `externalId` and `deepLink` set when `processExport` resolves, or
`failed` with `errorMessage` set when it rejects. -/
theorem exportFlow_states (db : MockDb) (u : AuthenticatedUser) (input : ExportInput)
    (ctx : RequestCtx) (outcome : Except String ExportResult) :
    ∀ rec db1, createExportRoute db u input ctx = (.ok rec, db1) →
      rec.status = "pending" ∧ rec.externalId = none ∧ rec.deepLink = none ∧
        rec.errorMessage = none ∧
        ∀ e ∈ (settleExport db1 rec.id outcome).exportRecords, e.id = rec.id →
          (e.status = "completed" ∧ e.externalId.isSome ∧ e.deepLink.isSome) ∨
            (e.status = "failed" ∧ e.errorMessage.isSome) := by
  intro rec db1 h
  unfold createExportRoute at h
  cases hf : db.reports.find? (fun r => r.id == input.reportId && r.tenantId == u.tenantId) with
  | none => rw [hf] at h; exact absurd h (by simp)
  | some report =>
      rw [hf] at h
      simp only [Prod.mk.injEq, ApiResp.ok.injEq] at h
      obtain ⟨hrec, hdb1⟩ := h
      refine ⟨by rw [← hrec], by rw [← hrec], by rw [← hrec], by rw [← hrec], ?_⟩
      intro e he hid
      cases outcome with
      | ok r =>
          simp only [settleExport] at he
          obtain ⟨x, hx, rfl⟩ := List.mem_map.mp he
          by_cases hxid : x.id == rec.id
          · left; simp [hxid]
          · rw [if_neg (by simpa using hxid)] at hid ⊢
            exact absurd (beq_iff_eq.mpr hid) hxid
      | error m =>
          simp only [settleExport] at he
          obtain ⟨x, hx, rfl⟩ := List.mem_map.mp he
          by_cases hxid : x.id == rec.id
          · right; simp [hxid]
          · rw [if_neg (by simpa using hxid)] at hid ⊢
            exact absurd (beq_iff_eq.mpr hid) hxid

/-- C6 witness: the flow evaluated on the demo database — the created
record is pending, and a rejecting deferred step leaves it `failed` with
an error message. -/
theorem exportFlow_states_witness :
    demoExportPending.status = "pending" ∧
    ((demoExportFailed.status = "completed" ∧ demoExportFailed.externalId.isSome ∧
        demoExportFailed.deepLink.isSome) ∨
      (demoExportFailed.status = "failed" ∧ demoExportFailed.errorMessage.isSome)) := by
  have h := exportFlow_states demoDb demoAdminUser demoExportInput demoCtx
    (.error "Unknown error") demoExportPending
    (createExportRoute demoDb demoAdminUser demoExportInput demoCtx).2 (by decide)
  exact ⟨h.1, h.2.2.2.2 demoExportFailed (by decide) (by decide)⟩

end Reportify

